import Mathlib

/-!
Verification development for the session-generator bot
(`improved_session_bot.py`, `utils.py`).

The Python handlers are embedded shallowly:

* pure helpers (`InputValidator.*`, `FormatUtils.format_session_preview`)
  become Lean functions over `String` / `List Char`;
* the in-memory rate limiter (`RateLimiter` with `redis_client = None`)
  becomes explicit state passing over `Option RateRec`, with the current
  wall-clock time `now : Nat` passed as an argument (each Python call site
  reads `time.time()` once per step);
* each conversation handler becomes a function from the per-user
  `context.user_data` dictionary (`UserData`), the inbound message text,
  and an oracle describing the outcome of the backend network calls, to
  the returned conversation state, the updated `user_data`, and the list
  of observable effects (messages sent, backend calls made, disconnects)
  in program order.  Dictionary reads that the code performs only on
  paths where the key was already stored are modelled with `Option.getD`.
-/

namespace SessionBot

/-! ## Python string primitives -/

/-- Python `str.strip()` whitespace predicate (ASCII whitespace). -/
def isPySpace (c : Char) : Bool :=
  c == ' ' || c == '\t' || c == '\n' || c == '\r' || c == '\x0b' || c == '\x0c'

/-- Python `s.strip()`: drop leading and trailing whitespace. -/
def pyStrip (s : String) : String :=
  ⟨((s.data.dropWhile isPySpace).reverse.dropWhile isPySpace).reverse⟩

/-! ## Rate limiter (`RateLimiter`, in-memory fallback path, lines 85-125)

`rate_limit_storage[user_id]` is modelled per user as `Option RateRec`
(`none` = no record yet).  `RATE_LIMIT_WINDOW = 3600`,
`MAX_ATTEMPTS_PER_HOUR = 5`. -/

def RATE_LIMIT_WINDOW : Nat := 3600

def MAX_ATTEMPTS_PER_HOUR : Nat := 5

structure RateRec where
  attempts : Nat
  reset_time : Nat
deriving DecidableEq

/-- `RateLimiter.get_user_attempts` (in-memory fallback): lazily resets an
expired record (`time.time() > reset_time`) to attempts 0 with a fresh
reset timestamp, returning the current count and the (possibly mutated)
stored record. -/
def get_user_attempts (now : Nat) (st : Option RateRec) : Nat × Option RateRec :=
  match st with
  | none => (0, none)
  | some r =>
    if r.reset_time < now then
      (0, some ⟨0, now + RATE_LIMIT_WINDOW⟩)
    else
      (r.attempts, some r)

/-- `RateLimiter.increment_attempts` (in-memory fallback): returns `true`
and increments while under the ceiling; returns `false` without touching
the counter once `current_attempts >= MAX_ATTEMPTS_PER_HOUR`. -/
def increment_attempts (now : Nat) (st : Option RateRec) : Bool × Option RateRec :=
  let cur := get_user_attempts now st
  if MAX_ATTEMPTS_PER_HOUR ≤ cur.1 then
    (false, cur.2)
  else
    match cur.2 with
    | none => (true, some ⟨cur.1 + 1, now + RATE_LIMIT_WINDOW⟩)
    | some r => (true, some ⟨cur.1 + 1, r.reset_time⟩)

/-! ## Input validators (`InputValidator`, lines 130-165) -/

/-- Value of an ASCII decimal digit. -/
def digitVal (c : Char) : Nat := c.toNat - 48

/-- Digit tail of a Python integer literal: digits optionally separated by
single underscores (as accepted by Python `int()`), accumulating the value. -/
def pyDigitsRest : List Char → Nat → Option Nat
  | [], acc => some acc
  | '_' :: c :: rest, acc =>
    if c.isDigit then pyDigitsRest rest (acc * 10 + digitVal c) else none
  | c :: rest, acc =>
    if c.isDigit then pyDigitsRest rest (acc * 10 + digitVal c) else none

/-- Unsigned part of Python `int()`: at least one digit, underscores only
between digits. -/
def parsePyNat (cs : List Char) : Option Nat :=
  match cs with
  | [] => none
  | c :: rest => if c.isDigit then pyDigitsRest rest (digitVal c) else none

/-- Python `int(s)` on an already-stripped string: optional single sign
followed by digits (ASCII digits with optional single underscores). -/
def parsePyInt (cs : List Char) : Option Int :=
  match cs with
  | '+' :: rest => (parsePyNat rest).map Int.ofNat
  | '-' :: rest => (parsePyNat rest).map (fun n => -(n : Int))
  | _ => (parsePyNat cs).map Int.ofNat

/-- `InputValidator.validate_api_id`: `int(api_id_str.strip())`, then fail
when `api_id <= 0 or len(str(api_id)) < 6`.  For a positive integer,
`len(str(n))` is the number of decimal digits, i.e.
`(Nat.digits 10 n).length`. -/
def validate_api_id (s : String) : Except String Int :=
  match parsePyInt (pyStrip s).data with
  | none => .error "API ID must be a valid number"
  | some n =>
    if n ≤ 0 ∨ (Nat.digits 10 n.toNat).length < 6 then
      .error "API ID must be a positive number with at least 6 digits"
    else
      .ok n

/-- Character class of the pattern `[a-f0-9]` under `re.IGNORECASE`. -/
def isHexCI (c : Char) : Bool :=
  c.isDigit || ('a' ≤ c && c ≤ 'f') || ('A' ≤ c && c ≤ 'F')

/-- The regex `^[a-f0-9]{32}$` with `re.IGNORECASE` on a stripped string. -/
def hashRegex (cs : List Char) : Bool :=
  cs.length == 32 && cs.all isHexCI

/-- `InputValidator.validate_api_hash`: strip, match the 32-hex-character
pattern, and return the stripped string unchanged on success. -/
def validate_api_hash (s : String) : Except String String :=
  let t := pyStrip s
  if hashRegex t.data then
    .ok t
  else
    .error "API Hash must be a 32-character hexadecimal string"

/-- `re.sub(r'[^\d+]', '', phone.strip())`: keep digits and every `+`. -/
def keepDigitsPlus (s : String) : String :=
  ⟨(pyStrip s).data.filter (fun c => c.isDigit || c == '+')⟩

/-- Body of the regex `[1-9]\d{1,14}` anchored on both sides. -/
def phoneCore (ds : List Char) : Bool :=
  match ds with
  | [] => false
  | c :: rest =>
    ('1' ≤ c && c ≤ '9') && (1 ≤ rest.length && rest.length ≤ 14)
      && rest.all Char.isDigit

/-- The regex `^\+?[1-9]\d{1,14}$` (the optional leading `+` is consumed
when present; `+` itself can never satisfy `[1-9]`). -/
def phoneRegex (cs : List Char) : Bool :=
  match cs with
  | [] => phoneCore []
  | c :: rest => if c = '+' then phoneCore rest else phoneCore (c :: rest)

def phoneFormatErr : String :=
  "Phone number must be in international format (e.g., +1234567890)"

/-- `InputValidator.validate_phone_number`: strip to digits/`+`, match the
international-format regex, then prefix `+` when absent (Python string
concatenation `'+' + phone` is a cons at character level). -/
def validate_phone_number (s : String) : Except String String :=
  let p := keepDigitsPlus s
  if phoneRegex p.data then
    .ok (match p.data with
         | [] => ⟨'+' :: p.data⟩
         | c :: _ => if c = '+' then p else ⟨'+' :: p.data⟩)
  else
    .error phoneFormatErr

/-- `re.sub(r'[^\d]', '', otp.strip())`. -/
def keepDigits (s : String) : String :=
  ⟨(pyStrip s).data.filter Char.isDigit⟩

/-- The regex `^\d{5}$`. -/
def otpRegex (cs : List Char) : Bool :=
  cs.length == 5 && cs.all Char.isDigit

/-- `InputValidator.validate_otp`: strip non-digits, require exactly five
digits. -/
def validate_otp (s : String) : Except String String :=
  let t := keepDigits s
  if otpRegex t.data then .ok t else .error "OTP must be a 5-digit code"

/-! ## `FormatUtils.format_session_preview` (`utils.py`, lines 36-41)

Python slicing is character based: `session[:length//2]` and
`session[-length//2:]`, where `-length//2 = -ceil(length/2)` by floor
division; a `-0` lower slice bound (only when `length = 0`) denotes the
whole string. -/

def format_session_preview (session : String) (len : Nat) : String :=
  if session.length ≤ len then
    session
  else if len = 0 then
    ⟨session.data.take 0⟩ ++ "..." ++ session
  else
    ⟨session.data.take (len / 2)⟩ ++ "..."
      ++ ⟨session.data.drop (session.length - (len + 1) / 2)⟩

/-! ## Conversation states

The Python integer constants from `range(12)` plus
`ConversationHandler.END` (`END`) and Python `None` returned by a handler
(`NONE`, which leaves the conversation state untouched / unentered). -/

inductive ChatState
  | API_ID | API_HASH | TELETHON_PHONE | TELETHON_OTP | TELETHON_2FA
  | PYRO_API_ID | PYRO_API_HASH | PYRO_PHONE | PYRO_OTP | PYRO_2FA
  | REVOKE_CONFIRM | MAIN_MENU | END | NONE
deriving DecidableEq

/-- The `context.user_data` per-user dictionary: one `Option` field per
key the handlers use (`none` = key absent).  Client handles are opaque
identifiers (`Nat`). -/
structure UserData where
  api_id : Option Int
  api_hash : Option String
  phone : Option String
  phone_hash : Option String
  client : Option Nat
  pyro_api_id : Option Int
  pyro_api_hash : Option String
  pyro_phone : Option String
  phone_code_hash : Option String
  pyro_client : Option Nat
deriving DecidableEq

def emptyUD : UserData :=
  ⟨none, none, none, none, none, none, none, none, none, none⟩

/-- An active-session snapshot returned by `GetAuthorizationsRequest`. -/
structure Authorization where
  hash : Int
  device_model : String
  platform : String
  current : Bool
deriving DecidableEq

/-- Observable effects of one handler invocation, in program order.
`validatorCall` marks an invocation of `InputValidator`;
`disconnect h` is `safe_disconnect` on handle `h` (modelled as
succeeding); `telSignIn`/`pyroSignIn` are the backend `sign_in` calls
with their argument order from the source; `replyKeyboard` is a reply
carrying an inline keyboard (list of `(label, callback_data)` buttons,
one per row); `editMessage` is `query.edit_message_text`. -/
inductive Effect
  | replyText (msg : String)
  | editMessage (msg : String)
  | replyKeyboard (msg : String) (buttons : List (String × String))
  | validatorCall
  | telSignIn (handle : Nat) (phone code phoneHash : String)
  | telSignInPassword (handle : Nat) (password : String)
  | pyroSignIn (handle : Nat) (phone phoneHash code : String)
  | pyroCheckPassword (handle : Nat) (password : String)
  | getAuthorizations (handle : Nat)
  | disconnect (handle : Nat)
deriving DecidableEq

/-- Number of `disconnect` effects on a given handle in a trace. -/
def countDisconnects (effs : List Effect) (h : Nat) : Nat :=
  (effs.filter (fun e => e == Effect.disconnect h)).length

/-! ## Message texts (verbatim from the source) -/

def sessionExpiredMsg : String := "❌ Session expired. Please start over with /start"

def revokeExpiredMsg : String := "❌ Session expired. Please start over."

def successSuf : String :=
  "`\n\n⚠️ **Security Warning:**\n• Keep this session string private\n• Don\x27t share it with anyone\n• Use /start to revoke if compromised"

def telethonSuccessPre : String :=
  "✅ **Telethon Session Generated Successfully!**\n\n`"

def pyroSuccessPre : String :=
  "✅ **Pyrogram Session Generated Successfully!**\n\n`"

def telethonSuccessMsg (session : String) : String :=
  telethonSuccessPre ++ session ++ successSuf

def pyroSuccessMsg (session : String) : String :=
  pyroSuccessPre ++ session ++ successSuf

def twoFaPromptMsg : String :=
  "🔐 2FA is enabled on your account.\n\nEnter your password:"

def invalidOtpMsg : String :=
  "❌ Invalid OTP code. Please enter the correct 5-digit code:"

def otpExpiredMsg : String := "⏰ OTP code expired. Please start over with /start"

def telOtpUnexpectedMsg : String :=
  "❌ An unexpected error occurred. Please start over."

def pyroOtpFailMsg : String :=
  "❌ Invalid OTP or authentication failed. Please start over."

def authFailedMsg : String :=
  "❌ Incorrect password or authentication failed. Please start over."

def otpRetryMsg (e : String) : String :=
  "❌ " ++ e ++ "\n\nPlease enter the OTP code:"

def phoneRetryMsg (e : String) : String :=
  "❌ " ++ e ++ "\n\nPlease enter a valid phone number:"

def otpSentMsg : String :=
  "📱 OTP sent to your Telegram account!\n\nEnter the 5-digit verification code:"

def backendPhoneInvalidMsg : String :=
  "❌ Invalid phone number. Please try again with correct format:"

def apiCredentialsInvalidMsg : String :=
  "❌ Invalid API credentials. Please start over with /start"

def migrateMsg (dc : Nat) : String :=
  "📡 Your account is on DC " ++ toString dc ++ ". Please restart the process."

def floodWaitMsg (sec : Nat) : String :=
  "⏳ Telegram rate limit hit. Please wait " ++ toString sec
    ++ " seconds before trying again."

def phoneUnexpectedMsg : String :=
  "❌ An unexpected error occurred. Please try again later."

def telethonEntryPrompt : String :=
  "🔧 **Telethon Session Generator**\n\nPlease enter your API ID:"

def pyroEntryPrompt : String :=
  "🚀 **Pyrogram Session Generator**\n\nPlease enter your API ID:"

def revokeEntryPrompt : String :=
  "🗑️ **Session Revocation**\n\nTo revoke your active sessions:\n1. Provide your API credentials\n2. Sign in to your account\n3. Select sessions to revoke\n\n⚠️ This will log out all devices using revoked sessions.\n\nEnter your API ID to continue:"

def revokeUnavailableMsg : String := "❌ Session revocation requires Telethon library."

def noSessionsMsg : String := "📱 No active sessions found."

def failedListMsg : String := "❌ Failed to retrieve session list."

/-! ## Backend-call oracles

Each handler's backend round trips are a single oracle argument giving
the outcome the third-party library produced on that turn. -/

/-- Outcome of the `client.connect(); client.send_code_request(phone)`
block in `telethon_phone`.  `unexpected` is any exception other than the
four caught Telethon errors, raised after the client was constructed and
stored in `user_data` (it lands in the handler's outer
`except Exception`). -/
inductive SendCodeResult
  | sent (phoneHash : String)
  | phoneInvalid
  | apiIdInvalid
  | migrate (dc : Nat)
  | floodWait (sec : Nat)
  | unexpected
deriving DecidableEq

/-- Outcome of `client.sign_in(phone, code, phone_hash)` in
`telethon_otp`. -/
inductive TelSignInResult
  | ok
  | needsPassword
  | codeInvalid
  | codeExpired
  | unexpected
deriving DecidableEq

/-- Outcome of `app.sign_in(phone, phone_code_hash, code)` in
`pyro_otp`: only `SessionPasswordNeeded` is caught specifically; an
invalid code and any other failure both land in the generic
`except Exception` branch. -/
inductive PyroSignInResult
  | ok
  | needsPassword
  | codeInvalid
  | unexpected
deriving DecidableEq

/-- Outcome of the 2FA password submission (`sign_in(password=...)` /
`check_password`). -/
inductive PasswordResult
  | ok
  | failed
deriving DecidableEq

/-! ## Conversation handlers (Telethon flow) -/

/-- `telethon_phone` (lines 293-341).  `newHandle` is the identity of
the `TelegramClient` constructed on this turn; `res` the oracle for the
connect/send-code block; the session oracle is irrelevant here.  On the
`unexpected` branch the code logs and replies but performs no
disconnect. -/
def telethon_phone (ud : UserData) (text : String) (newHandle : Nat)
    (res : SendCodeResult) : ChatState × UserData × List Effect :=
  match validate_phone_number text with
  | .error e =>
    (.TELETHON_PHONE, ud, [.validatorCall, .replyText (phoneRetryMsg e)])
  | .ok phone =>
    let ud1 := { ud with phone := some phone, client := some newHandle }
    match res with
    | .sent ph =>
      (.TELETHON_OTP, { ud1 with phone_hash := some ph },
        [.validatorCall, .replyText otpSentMsg])
    | .phoneInvalid =>
      (.TELETHON_PHONE, ud1,
        [.validatorCall, .disconnect newHandle, .replyText backendPhoneInvalidMsg])
    | .apiIdInvalid =>
      (.END, ud1,
        [.validatorCall, .disconnect newHandle, .replyText apiCredentialsInvalidMsg])
    | .migrate dc =>
      (.END, ud1,
        [.validatorCall, .disconnect newHandle, .replyText (migrateMsg dc)])
    | .floodWait sec =>
      (.END, ud1,
        [.validatorCall, .disconnect newHandle, .replyText (floodWaitMsg sec)])
    | .unexpected =>
      (.END, ud1, [.validatorCall, .replyText phoneUnexpectedMsg])

/-- `telethon_otp` (lines 343-388).  `session` is the string
`client.session.save()` would return. -/
def telethon_otp (ud : UserData) (text : String) (res : TelSignInResult)
    (session : String) : ChatState × UserData × List Effect :=
  match ud.client with
  | none => (.END, ud, [.replyText sessionExpiredMsg])
  | some client =>
    match validate_otp text with
    | .error e =>
      (.TELETHON_OTP, ud, [.validatorCall, .replyText (otpRetryMsg e)])
    | .ok code =>
      let signIn := Effect.telSignIn client (ud.phone.getD "") code (ud.phone_hash.getD "")
      match res with
      | .needsPassword =>
        (.TELETHON_2FA, ud, [.validatorCall, signIn, .replyText twoFaPromptMsg])
      | .codeInvalid =>
        (.TELETHON_OTP, ud, [.validatorCall, signIn, .replyText invalidOtpMsg])
      | .codeExpired =>
        (.END, ud,
          [.validatorCall, signIn, .disconnect client, .replyText otpExpiredMsg])
      | .ok =>
        (.END, ud,
          [.validatorCall, signIn, .replyText (telethonSuccessMsg session),
           .disconnect client])
      | .unexpected =>
        (.END, ud,
          [.validatorCall, signIn, .disconnect client, .replyText telOtpUnexpectedMsg])

/-- `telethon_2fa` (lines 390-419): no validator; any failure of the
password sign-in lands in the generic handler (disconnect, then generic
failure message). -/
def telethon_2fa (ud : UserData) (text : String) (res : PasswordResult)
    (session : String) : ChatState × UserData × List Effect :=
  match ud.client with
  | none => (.END, ud, [.replyText sessionExpiredMsg])
  | some client =>
    match res with
    | .ok =>
      (.END, ud,
        [.telSignInPassword client text, .replyText (telethonSuccessMsg session),
         .disconnect client])
    | .failed =>
      (.END, ud,
        [.telSignInPassword client text, .disconnect client, .replyText authFailedMsg])

/-! ## Conversation handlers (Pyrogram flow) -/

/-- `pyro_otp` (lines 502-544).  `session` is the string
`app.export_session_string()` would return. -/
def pyro_otp (ud : UserData) (text : String) (res : PyroSignInResult)
    (session : String) : ChatState × UserData × List Effect :=
  match ud.pyro_client with
  | none => (.END, ud, [.replyText sessionExpiredMsg])
  | some app =>
    match validate_otp text with
    | .error e =>
      (.PYRO_OTP, ud, [.validatorCall, .replyText (otpRetryMsg e)])
    | .ok code =>
      let signIn :=
        Effect.pyroSignIn app (ud.pyro_phone.getD "") (ud.phone_code_hash.getD "") code
      match res with
      | .needsPassword =>
        (.PYRO_2FA, ud, [.validatorCall, signIn, .replyText twoFaPromptMsg])
      | .ok =>
        (.END, ud,
          [.validatorCall, signIn, .replyText (pyroSuccessMsg session),
           .disconnect app])
      | .codeInvalid =>
        (.END, ud,
          [.validatorCall, signIn, .disconnect app, .replyText pyroOtpFailMsg])
      | .unexpected =>
        (.END, ud,
          [.validatorCall, signIn, .disconnect app, .replyText pyroOtpFailMsg])

/-- `pyro_2fa` (lines 546-575). -/
def pyro_2fa (ud : UserData) (text : String) (res : PasswordResult)
    (session : String) : ChatState × UserData × List Effect :=
  match ud.pyro_client with
  | none => (.END, ud, [.replyText sessionExpiredMsg])
  | some app =>
    match res with
    | .ok =>
      (.END, ud,
        [.pyroCheckPassword app text, .replyText (pyroSuccessMsg session),
         .disconnect app])
    | .failed =>
      (.END, ud,
        [.pyroCheckPassword app text, .disconnect app, .replyText authFailedMsg])

/-! ## Flow entry points (button selection)

`start_telethon_flow` / `start_pyrogram_flow` call `rate_limit_check`
with a hand-built fake update object.  On denial `rate_limit_check`
calls `fake_update.message.reply_text(warning)`; `reply_text` there is a
one-parameter lambda stored in a class dictionary, so the bound-method
call receives two arguments and raises `TypeError` before any warning is
delivered — the entry handler has no try block, so the exception
propagates and the conversation is not entered (`raised`).
`start_revoke_flow` performs no rate-limit check at all. -/

inductive EntryOutcome
  | entered (st : ChatState)
  | raised
deriving DecidableEq

/-- `start_telethon_flow` (lines 257-269). -/
def start_telethon_flow (now : Nat) (r : Option RateRec) :
    EntryOutcome × Option RateRec × List Effect :=
  let res := increment_attempts now r
  if res.1 then
    (.entered .API_ID, res.2, [.editMessage telethonEntryPrompt])
  else
    (.raised, res.2, [])

/-- `start_pyrogram_flow` (lines 423-435). -/
def start_pyrogram_flow (now : Nat) (r : Option RateRec) :
    EntryOutcome × Option RateRec × List Effect :=
  let res := increment_attempts now r
  if res.1 then
    (.entered .PYRO_API_ID, res.2, [.editMessage pyroEntryPrompt])
  else
    (.raised, res.2, [])

/-- `start_revoke_flow` (lines 579-595): only checks
`TELETHON_AVAILABLE`; never consults the rate limiter; returns `API_ID`
(Python `None`, i.e. no conversation entry, when Telethon is missing). -/
def start_revoke_flow (telethonAvailable : Bool) (now : Nat) (r : Option RateRec) :
    EntryOutcome × Option RateRec × List Effect :=
  if telethonAvailable then
    (.entered .API_ID, r, [.editMessage revokeEntryPrompt])
  else
    (.entered .NONE, r, [.editMessage revokeUnavailableMsg])

/-! ## Session revocation (`list_and_revoke_sessions`, lines 597-638)

In the revocation `ConversationHandler` (lines 730-740) the
`TELETHON_OTP` state is handled by `list_and_revoke_sessions`, so this
function receives the OTP text the user typed.  `auths` is the oracle
for `client(GetAuthorizationsRequest())`: `none` when the request raises
(e.g. the client was never signed in), otherwise the authorization
list. -/

def deviceInfo (a : Authorization) : String :=
  a.device_model ++ " - " ++ a.platform ++ (if a.current then " (Current)" else "")

def revokeButton (a : Authorization) : String × String :=
  ("Revoke: " ++ ⟨(deviceInfo a).data.take 30⟩ ++ "...",
   "revoke_" ++ toString a.hash)

def sessionListText (l : List Authorization) : String :=
  "🔐 **Active Sessions:**\n\n"
    ++ String.join ((l.take 10).enum.map
        (fun p => toString (p.1 + 1) ++ ". " ++ deviceInfo p.2 ++ "\n"))

def revokeKeyboard (l : List Authorization) : List (String × String) :=
  ((l.take 10).filter (fun a => !a.current)).map revokeButton
    ++ [("❌ Cancel", "cancel_revoke")]

def list_and_revoke_sessions (ud : UserData) (text : String)
    (auths : Option (List Authorization)) : ChatState × UserData × List Effect :=
  match ud.client with
  | none => (.END, ud, [.replyText revokeExpiredMsg])
  | some client =>
    match auths with
    | none =>
      (.END, ud, [.getAuthorizations client, .disconnect client, .replyText failedListMsg])
    | some [] =>
      (.END, ud, [.getAuthorizations client, .replyText noSessionsMsg, .disconnect client])
    | some l =>
      (.REVOKE_CONFIRM, ud,
        [.getAuthorizations client,
         .replyKeyboard (sessionListText l) (revokeKeyboard l)])

/-! ## Auxiliary definitions used by the statements -/

/-- `needle` is a prefix of `hay` (character lists). -/
def isPrefixList : List Char → List Char → Bool
  | [], _ => true
  | _ :: _, [] => false
  | a :: as, b :: bs => (a == b) && isPrefixList as bs

/-- `needle` occurs contiguously (verbatim) inside `hay`. -/
def subList : List Char → List Char → Bool
  | n, [] => n.isEmpty
  | n, c :: hs => isPrefixList n (c :: hs) || subList n hs

/-- The digit part relevant to `^\+?...`: the characters after an
optional leading `+`. -/
def pyDigitsOf (cs : List Char) : List Char :=
  match cs with
  | [] => []
  | c :: rest => if c = '+' then rest else c :: rest

instance {α β : Type} [DecidableEq α] [DecidableEq β] : DecidableEq (Except α β) :=
  fun a b =>
    match a, b with
    | .ok x, .ok y =>
      if h : x = y then .isTrue (by simp [h]) else .isFalse (by simp [h])
    | .error x, .error y =>
      if h : x = y then .isTrue (by simp [h]) else .isFalse (by simp [h])
    | .ok _, .error _ => .isFalse (by simp)
    | .error _, .ok _ => .isFalse (by simp)

def isTelSignIn (e : Effect) : Bool :=
  match e with
  | .telSignIn _ _ _ _ => true
  | _ => false

/-- Number of Telethon `sign_in(phone, code, hash)` calls in a trace. -/
def countTelSignIns (effs : List Effect) : Nat :=
  (effs.filter isTelSignIn).length

/-! ## Concrete fixtures used by counterexamples and witnesses -/

/-- A context as left by a completed Telethon phone step. -/
def udTel : UserData :=
  { emptyUD with client := some 1, phone := some "+12025550123",
                 phone_hash := some "abc" }

/-- A context holding both a Telethon and a Pyrogram client. -/
def udBoth : UserData :=
  { udTel with pyro_client := some 2, pyro_phone := some "+12025550123",
               phone_code_hash := some "abc" }

/-- A 36-character session string (longer than the 20-character preview
threshold). -/
def sessFix : String := "SESSDATA1234567890ABCDEFGHIJKLMNOPQR"

/-- Two authorization entries: the current session and one other. -/
def authsFix : List Authorization :=
  [⟨11, "iPhone 13", "iOS", true⟩, ⟨22, "Desktop", "Windows", false⟩]

/-! ## Rate limiter lemmas -/

theorem inc_fresh (now : Nat) :
    increment_attempts now none = (true, some ⟨1, now + RATE_LIMIT_WINDOW⟩) := by
  simp [increment_attempts, get_user_attempts, MAX_ATTEMPTS_PER_HOUR]

theorem inc_within (now : Nat) (r : RateRec) (h1 : ¬ r.reset_time < now)
    (h2 : r.attempts < MAX_ATTEMPTS_PER_HOUR) :
    increment_attempts now (some r) = (true, some ⟨r.attempts + 1, r.reset_time⟩) := by
  simp [increment_attempts, get_user_attempts, h1, Nat.not_le.mpr h2]

theorem inc_full (now : Nat) (r : RateRec) (h1 : ¬ r.reset_time < now)
    (h2 : MAX_ATTEMPTS_PER_HOUR ≤ r.attempts) :
    increment_attempts now (some r) = (false, some r) := by
  simp [increment_attempts, get_user_attempts, h1, h2]

theorem inc_expired (now : Nat) (r : RateRec) (h1 : r.reset_time < now) :
    increment_attempts now (some r) = (true, some ⟨1, now + RATE_LIMIT_WINDOW⟩) := by
  simp [increment_attempts, get_user_attempts, h1, MAX_ATTEMPTS_PER_HOUR]

theorem inc_denied (now : Nat) (r : Option RateRec)
    (h : MAX_ATTEMPTS_PER_HOUR ≤ (get_user_attempts now r).1) :
    increment_attempts now r = (false, r) := by
  cases r with
  | none => simp [get_user_attempts, MAX_ATTEMPTS_PER_HOUR] at h
  | some rec =>
    by_cases hr : rec.reset_time < now
    · simp [get_user_attempts, hr, MAX_ATTEMPTS_PER_HOUR] at h
    · have ha : MAX_ATTEMPTS_PER_HOUR ≤ rec.attempts := by
        simpa [get_user_attempts, hr] using h
      exact inc_full now rec hr ha

/-! ## C4 -/

/-- C4: starting from an empty record, five attempts within one window
each return `true` and raise the counter by one; the sixth returns
`false` leaving the counter at the ceiling of 5; once the current time
passes the stored reset timestamp, the next attempt reinitializes the
counter to zero before incrementing and returns `true`. -/
theorem rate_limiter_window_behavior (t1 t2 t3 t4 t5 t6 t7 : Nat)
    (h2 : ¬ t1 + RATE_LIMIT_WINDOW < t2) (h3 : ¬ t1 + RATE_LIMIT_WINDOW < t3)
    (h4 : ¬ t1 + RATE_LIMIT_WINDOW < t4) (h5 : ¬ t1 + RATE_LIMIT_WINDOW < t5)
    (h6 : ¬ t1 + RATE_LIMIT_WINDOW < t6) (h7 : t1 + RATE_LIMIT_WINDOW < t7) :
    increment_attempts t1 none = (true, some ⟨1, t1 + RATE_LIMIT_WINDOW⟩) ∧
    increment_attempts t2 (some ⟨1, t1 + RATE_LIMIT_WINDOW⟩)
      = (true, some ⟨2, t1 + RATE_LIMIT_WINDOW⟩) ∧
    increment_attempts t3 (some ⟨2, t1 + RATE_LIMIT_WINDOW⟩)
      = (true, some ⟨3, t1 + RATE_LIMIT_WINDOW⟩) ∧
    increment_attempts t4 (some ⟨3, t1 + RATE_LIMIT_WINDOW⟩)
      = (true, some ⟨4, t1 + RATE_LIMIT_WINDOW⟩) ∧
    increment_attempts t5 (some ⟨4, t1 + RATE_LIMIT_WINDOW⟩)
      = (true, some ⟨5, t1 + RATE_LIMIT_WINDOW⟩) ∧
    increment_attempts t6 (some ⟨5, t1 + RATE_LIMIT_WINDOW⟩)
      = (false, some ⟨5, t1 + RATE_LIMIT_WINDOW⟩) ∧
    increment_attempts t7 (some ⟨5, t1 + RATE_LIMIT_WINDOW⟩)
      = (true, some ⟨1, t7 + RATE_LIMIT_WINDOW⟩) :=
  ⟨inc_fresh t1,
   inc_within t2 ⟨1, t1 + RATE_LIMIT_WINDOW⟩ h2 (by norm_num [MAX_ATTEMPTS_PER_HOUR]),
   inc_within t3 ⟨2, t1 + RATE_LIMIT_WINDOW⟩ h3 (by norm_num [MAX_ATTEMPTS_PER_HOUR]),
   inc_within t4 ⟨3, t1 + RATE_LIMIT_WINDOW⟩ h4 (by norm_num [MAX_ATTEMPTS_PER_HOUR]),
   inc_within t5 ⟨4, t1 + RATE_LIMIT_WINDOW⟩ h5 (by norm_num [MAX_ATTEMPTS_PER_HOUR]),
   inc_full t6 ⟨5, t1 + RATE_LIMIT_WINDOW⟩ h6 (by norm_num [MAX_ATTEMPTS_PER_HOUR]),
   inc_expired t7 ⟨5, t1 + RATE_LIMIT_WINDOW⟩ h7⟩

/-- Witness for C4 at `t1 = … = t6 = 0`, `t7 = 3601`. -/
theorem rate_limiter_window_behavior_witness :
    increment_attempts 0 none = (true, some ⟨1, 0 + RATE_LIMIT_WINDOW⟩) ∧
    increment_attempts 0 (some ⟨1, 0 + RATE_LIMIT_WINDOW⟩)
      = (true, some ⟨2, 0 + RATE_LIMIT_WINDOW⟩) ∧
    increment_attempts 0 (some ⟨2, 0 + RATE_LIMIT_WINDOW⟩)
      = (true, some ⟨3, 0 + RATE_LIMIT_WINDOW⟩) ∧
    increment_attempts 0 (some ⟨3, 0 + RATE_LIMIT_WINDOW⟩)
      = (true, some ⟨4, 0 + RATE_LIMIT_WINDOW⟩) ∧
    increment_attempts 0 (some ⟨4, 0 + RATE_LIMIT_WINDOW⟩)
      = (true, some ⟨5, 0 + RATE_LIMIT_WINDOW⟩) ∧
    increment_attempts 0 (some ⟨5, 0 + RATE_LIMIT_WINDOW⟩)
      = (false, some ⟨5, 0 + RATE_LIMIT_WINDOW⟩) ∧
    increment_attempts 3601 (some ⟨5, 0 + RATE_LIMIT_WINDOW⟩)
      = (true, some ⟨1, 3601 + RATE_LIMIT_WINDOW⟩) :=
  rate_limiter_window_behavior 0 0 0 0 0 0 3601
    (by decide) (by decide) (by decide) (by decide) (by decide) (by decide)

/-! ## C10 -/

/-- C10: in each awaiting-OTP or awaiting-2FA state, if the per-user
context holds no backend client handle, the handler replies that the
session expired and returns the terminal state, with no validator
invocation and no backend call. -/
theorem missing_client_short_circuits (ud : UserData) (text session : String)
    (tres : TelSignInResult) (pres : PyroSignInResult)
    (t2res p2res : PasswordResult)
    (hc : ud.client = none) (hp : ud.pyro_client = none) :
    telethon_otp ud text tres session = (.END, ud, [.replyText sessionExpiredMsg]) ∧
    pyro_otp ud text pres session = (.END, ud, [.replyText sessionExpiredMsg]) ∧
    telethon_2fa ud text t2res session = (.END, ud, [.replyText sessionExpiredMsg]) ∧
    pyro_2fa ud text p2res session = (.END, ud, [.replyText sessionExpiredMsg]) := by
  refine ⟨?_, ?_, ?_, ?_⟩ <;>
    simp [telethon_otp, pyro_otp, telethon_2fa, pyro_2fa, hc, hp]

/-- Witness for C10 on the empty context. -/
theorem missing_client_short_circuits_witness :
    telethon_otp emptyUD "12345" TelSignInResult.ok "s"
      = (.END, emptyUD, [.replyText sessionExpiredMsg]) ∧
    pyro_otp emptyUD "12345" PyroSignInResult.ok "s"
      = (.END, emptyUD, [.replyText sessionExpiredMsg]) ∧
    telethon_2fa emptyUD "12345" PasswordResult.ok "s"
      = (.END, emptyUD, [.replyText sessionExpiredMsg]) ∧
    pyro_2fa emptyUD "12345" PasswordResult.ok "s"
      = (.END, emptyUD, [.replyText sessionExpiredMsg]) :=
  missing_client_short_circuits emptyUD "12345" "s"
    TelSignInResult.ok PyroSignInResult.ok PasswordResult.ok PasswordResult.ok
    rfl rfl

/-! ## C1 -/

/-- C1: the claim that every terminal transition releases a stored
backend handle exactly once fails in the code: when the
connect/send-code block of `telethon_phone` raises an unexpected
exception, the handler returns the terminal state with the freshly
constructed client still stored in the context and zero `disconnect`
calls on it. -/
theorem telethon_phone_unexpected_leaks_handle :
    telethon_phone emptyUD "12025550123" 1 SendCodeResult.unexpected =
      (.END,
       { emptyUD with phone := some "+12025550123", client := some 1 },
       [.validatorCall, .replyText phoneUnexpectedMsg]) ∧
    countDisconnects
      (telethon_phone emptyUD "12025550123" 1 SendCodeResult.unexpected).2.2 1 = 0 := by
  decide

set_option maxRecDepth 8192

/-! ## C2 -/

/-- C2 counterexample: for the Pyrogram backend an invalid OTP is *not*
re-prompted — `pyro_otp` has no specific handler for an invalid-code
error, so it falls into the generic exception branch, disconnects the
client and ends the conversation. -/
theorem pyro_invalid_code_terminates :
    pyro_otp udBoth "12345" PyroSignInResult.codeInvalid "sess" =
      (.END, udBoth,
       [.validatorCall, .pyroSignIn 2 "+12025550123" "abc" "12345",
        .disconnect 2, .replyText pyroOtpFailMsg]) ∧
    ChatState.END ≠ ChatState.PYRO_OTP := by
  decide

/-- C2 amended: only the Telethon flow re-prompts on a backend
invalid-code error, keeping the awaiting-OTP state with no disconnect;
the Pyrogram flow releases the handle and terminates with a start-over
message. -/
theorem invalid_code_per_backend (ud : UserData) (c a : Nat)
    (text code session : String)
    (hc : ud.client = some c) (ha : ud.pyro_client = some a)
    (hv : validate_otp text = .ok code) :
    telethon_otp ud text TelSignInResult.codeInvalid session =
      (.TELETHON_OTP, ud,
       [.validatorCall,
        .telSignIn c (ud.phone.getD "") code (ud.phone_hash.getD ""),
        .replyText invalidOtpMsg]) ∧
    pyro_otp ud text PyroSignInResult.codeInvalid session =
      (.END, ud,
       [.validatorCall,
        .pyroSignIn a (ud.pyro_phone.getD "") (ud.phone_code_hash.getD "") code,
        .disconnect a, .replyText pyroOtpFailMsg]) := by
  constructor <;> simp [telethon_otp, pyro_otp, hc, ha, hv]

/-- Witness for the amended C2 on a context holding both clients. -/
theorem invalid_code_per_backend_witness :
    telethon_otp udBoth "12345" TelSignInResult.codeInvalid "sess" =
      (.TELETHON_OTP, udBoth,
       [.validatorCall,
        .telSignIn 1 (udBoth.phone.getD "") "12345" (udBoth.phone_hash.getD ""),
        .replyText invalidOtpMsg]) ∧
    pyro_otp udBoth "12345" PyroSignInResult.codeInvalid "sess" =
      (.END, udBoth,
       [.validatorCall,
        .pyroSignIn 2 (udBoth.pyro_phone.getD "") (udBoth.phone_code_hash.getD "") "12345",
        .disconnect 2, .replyText pyroOtpFailMsg]) :=
  invalid_code_per_backend udBoth 1 2 "12345" "12345" "sess" rfl rfl rfl

/-! ## C5 -/

/-- C5 counterexample: the revocation entry point ignores the rate
limiter entirely — with the attempt count already at the ceiling it
still proceeds to the awaiting-API-ID state, leaves the rate record
untouched and emits no warning. -/
theorem revoke_entry_not_gated :
    start_revoke_flow true 10 (some ⟨5, 1000⟩) =
      (.entered .API_ID, some ⟨5, 1000⟩, [.editMessage revokeEntryPrompt]) ∧
    (get_user_attempts 10 (some ⟨5, 1000⟩)).1 = MAX_ATTEMPTS_PER_HOUR ∧
    ChatState.API_ID ≠ ChatState.END := by
  decide

/-- C5 amended: the two generation flow entries are gated — at the
ceiling they do not enter the conversation, allocate nothing, and leave
the rate record unchanged (the denial branch dies in the broken
warning shim before any message is sent) — while the revocation entry
proceeds to the awaiting-API-ID state regardless of the count. -/
theorem entry_gating (now : Nat) (r : Option RateRec)
    (h : MAX_ATTEMPTS_PER_HOUR ≤ (get_user_attempts now r).1) :
    start_telethon_flow now r = (.raised, r, []) ∧
    start_pyrogram_flow now r = (.raised, r, []) ∧
    start_revoke_flow true now r =
      (.entered .API_ID, r, [.editMessage revokeEntryPrompt]) := by
  have hd := inc_denied now r h
  refine ⟨?_, ?_, ?_⟩ <;>
    simp [start_telethon_flow, start_pyrogram_flow, start_revoke_flow, hd]

/-- Witness for the amended C5 at an exhausted record. -/
theorem entry_gating_witness :
    start_telethon_flow 10 (some ⟨5, 1000⟩) = (.raised, some ⟨5, 1000⟩, []) ∧
    start_pyrogram_flow 10 (some ⟨5, 1000⟩) = (.raised, some ⟨5, 1000⟩, []) ∧
    start_revoke_flow true 10 (some ⟨5, 1000⟩) =
      (.entered .API_ID, some ⟨5, 1000⟩, [.editMessage revokeEntryPrompt]) :=
  entry_gating 10 (some ⟨5, 1000⟩) (by decide)

/-! ## C9 -/

/-- C9: in the revocation conversation the awaiting-OTP state is wired
to `list_and_revoke_sessions`, which never submits the typed OTP — the
trace contains no sign-in call (`countTelSignIns = 0`, and the
validator is never invoked either); the listing step itself does keep
at most 10 entries, exclude the current session from the revoke buttons
and append a cancel button. -/
theorem revoke_flow_never_submits_otp :
    list_and_revoke_sessions udTel "12345" (some authsFix) =
      (.REVOKE_CONFIRM, udTel,
       [.getAuthorizations 1,
        .replyKeyboard (sessionListText authsFix) (revokeKeyboard authsFix)]) ∧
    countTelSignIns
      (list_and_revoke_sessions udTel "12345" (some authsFix)).2.2 = 0 ∧
    revokeKeyboard authsFix =
      [("Revoke: Desktop - Windows...", "revoke_22"),
       ("❌ Cancel", "cancel_revoke")] ∧
    (∀ l : List Authorization, (revokeKeyboard l).length ≤ 11) ∧
    (∀ l : List Authorization,
      (revokeKeyboard l).getLast? = some ("❌ Cancel", "cancel_revoke")) := by
  refine ⟨by decide, by decide, by decide, ?_, ?_⟩
  · intro l
    have h1 : ((l.take 10).filter (fun a => !a.current)).length ≤ (l.take 10).length :=
      List.length_filter_le _ _
    have h2 : (l.take 10).length ≤ 10 := List.length_take_le 10 l
    simp only [revokeKeyboard, List.length_append, List.length_map, List.length_singleton]
    omega
  · intro l
    simp [revokeKeyboard]

/-! ## C3 -/

theorem isPrefixList_self_append (n b : List Char) :
    isPrefixList n (n ++ b) = true := by
  induction n with
  | nil => rfl
  | cons a as ih => simp [isPrefixList, ih]

theorem subList_self_append (n b : List Char) : subList n (n ++ b) = true := by
  cases n with
  | nil =>
    cases b with
    | nil => rfl
    | cons c cs => simp [subList, isPrefixList]
  | cons x xs =>
    have h1 : isPrefixList (x :: xs) (x :: (xs ++ b)) = true := by
      simpa [isPrefixList] using isPrefixList_self_append xs b
    simp [subList, h1]

theorem subList_append_of_self (n a b : List Char) :
    subList n (a ++ (n ++ b)) = true := by
  induction a with
  | nil => simpa using subList_self_append n b
  | cons c cs ih => simp [subList, ih]

/-- C3 counterexample: on a successful Telethon OTP turn the reply sent
to the user is `telethonSuccessMsg sessFix`, which contains the full
36-character session string verbatim — not the masked preview
(`format_session_preview` would truncate it, and is never called by any
handler). -/
theorem session_string_sent_verbatim :
    telethon_otp udTel "12345" TelSignInResult.ok sessFix =
      (.END, udTel,
       [.validatorCall, .telSignIn 1 "+12025550123" "12345" "abc",
        .replyText (telethonSuccessMsg sessFix), .disconnect 1]) ∧
    subList sessFix.data (telethonSuccessMsg sessFix).data = true ∧
    subList sessFix.data (pyroSuccessMsg sessFix).data = true ∧
    format_session_preview sessFix 20 ≠ sessFix ∧
    20 < sessFix.length := by
  refine ⟨by decide, by decide, by decide, by decide, by decide⟩

/-- C3 amended: the success message of either backend flow embeds the
exported session string verbatim between markdown backticks; the
masking helper exists in `utils.py` but no handler invokes it. -/
theorem success_message_contains_session (s : String) :
    subList s.data (telethonSuccessMsg s).data = true ∧
    subList s.data (pyroSuccessMsg s).data = true := by
  constructor
  · have hd : (telethonSuccessMsg s).data
        = telethonSuccessPre.data ++ (s.data ++ successSuf.data) := by
      simp [telethonSuccessMsg, String.data_append, List.append_assoc]
    rw [hd]
    exact subList_append_of_self s.data telethonSuccessPre.data successSuf.data
  · have hd : (pyroSuccessMsg s).data
        = pyroSuccessPre.data ++ (s.data ++ successSuf.data) := by
      simp [pyroSuccessMsg, String.data_append, List.append_assoc]
    rw [hd]
    exact subList_append_of_self s.data pyroSuccessPre.data successSuf.data

/-! ## C6 -/

theorem digits_len_lt_six_iff (m : Nat) :
    ((Nat.digits 10 m).length < 6 ↔ m < 100000) := by
  rcases Nat.eq_zero_or_pos m with h0 | hpos
  · subst h0; simp
  · have hne : m ≠ 0 := Nat.pos_iff_ne_zero.mp hpos
    rw [Nat.digits_len 10 m (by norm_num) hne]
    have := Nat.lt_pow_iff_log_lt (b := 10) (by norm_num) hne (x := 5)
    constructor
    · intro h
      exact this.mpr (by omega)
    · intro h
      have := this.mp (by norm_num at h ⊢; exact h)
      omega

/-- C6: `validate_api_id` succeeds exactly on the strings whose stripped
form parses as a Python integer denoting a positive value of at least
six decimal digits (i.e. at least 100000), and then returns that
integer. -/
theorem validate_api_id_characterization (s : String) (n : Int) :
    validate_api_id s = .ok n ↔
      (parsePyInt (pyStrip s).data = some n ∧ 0 < n ∧ 100000 ≤ n) := by
  unfold validate_api_id
  cases hp : parsePyInt (pyStrip s).data with
  | none => simp
  | some m =>
    have hlen := digits_len_lt_six_iff m.toNat
    simp only [Option.some.injEq]
    by_cases hc : m ≤ 0 ∨ (Nat.digits 10 m.toNat).length < 6
    · simp only [if_pos hc]
      constructor
      · intro h
        exact absurd h (by simp)
      · rintro ⟨hmn, hpos, hge⟩
        subst hmn
        exfalso
        rcases hc with hc | hc
        · omega
        · have := hlen.mp hc
          omega
    · simp only [if_neg hc]
      push_neg at hc
      constructor
      · intro h
        have hmn : m = n := by
          injection h
        subst hmn
        have h1 : ¬ m.toNat < 100000 := fun hlt => absurd (hlen.mpr hlt) (by omega)
        exact ⟨rfl, by omega, by omega⟩
      · rintro ⟨hmn, hpos, hge⟩
        subst hmn
        rfl

/-! ## C7 -/

/-- C7 counterexample: the code returns the stripped string with its
original case preserved — an upper-case hex input is accepted and
echoed back as-is, not equal to its lowercase form as the claim
states. -/
theorem api_hash_not_lowercased :
    validate_api_hash "AbCdEf0123456789AbCdEf0123456789" =
      .ok "AbCdEf0123456789AbCdEf0123456789" ∧
    ("AbCdEf0123456789AbCdEf0123456789" : String)
      ≠ "abcdef0123456789abcdef0123456789" := by
  decide

/-- C7 amended: `validate_api_hash` succeeds exactly when the stripped
input is 32 case-insensitive hex characters, and then returns the
stripped input with its case preserved. -/
theorem validate_api_hash_characterization (s t : String) :
    validate_api_hash s = .ok t ↔
      (t = pyStrip s ∧ (pyStrip s).data.length = 32 ∧
       (pyStrip s).data.all isHexCI = true) := by
  unfold validate_api_hash
  by_cases h : hashRegex (pyStrip s).data = true
  · have hconds := h
    rw [hashRegex, Bool.and_eq_true, beq_iff_eq] at hconds
    simp [h, hconds.1, hconds.2, eq_comm]
  · rw [if_neg (by simpa using h)]
    rw [hashRegex, Bool.and_eq_true, beq_iff_eq] at h
    constructor
    · intro hcontra
      exact absurd hcontra (by simp)
    · rintro ⟨_, hl, ha⟩
      exact absurd ⟨hl, ha⟩ h

/-! ## C8 -/

/-- C8 counterexample: the regex `^\+?[1-9]\d{1,14}$` requires at least
two digits, so the single digit `"7"` (which the claim says should
yield `"+7"`) is rejected; and `+` characters are kept wherever they
occur, so `"1+2"` (digits `12` under the claim's reading) is also
rejected. -/
theorem phone_short_and_inner_plus_fail :
    validate_phone_number "7" = .error phoneFormatErr ∧
    validate_phone_number "1+2" = .error phoneFormatErr := by
  decide

theorem phoneCore_iff (ds : List Char) :
    phoneCore ds = true ↔
      ∃ c rest, ds = c :: rest ∧ '1' ≤ c ∧ c ≤ '9' ∧
        rest.all Char.isDigit = true ∧ 1 ≤ rest.length ∧ rest.length ≤ 14 := by
  cases ds with
  | nil => simp [phoneCore]
  | cons c rest =>
    simp only [phoneCore, Bool.and_eq_true, decide_eq_true_eq]
    constructor
    · rintro ⟨⟨⟨h1, h2⟩, h3, h4⟩, h5⟩
      exact ⟨c, rest, rfl, h1, h2, h5, h3, h4⟩
    · rintro ⟨c', rest', heq, h1, h2, h5, h3, h4⟩
      cases heq
      exact ⟨⟨⟨h1, h2⟩, h3, h4⟩, h5⟩

theorem phoneRegex_eq_core (cs : List Char) :
    phoneRegex cs = phoneCore (pyDigitsOf cs) := by
  cases cs with
  | nil => rfl
  | cons c rest =>
    by_cases h : c = '+' <;> simp [phoneRegex, pyDigitsOf, h]

theorem validate_phone_eq (s : String) :
    validate_phone_number s =
      (if phoneRegex (keepDigitsPlus s).data = true then
         Except.ok ⟨'+' :: pyDigitsOf (keepDigitsPlus s).data⟩
       else Except.error phoneFormatErr) := by
  have hp : keepDigitsPlus s = ⟨(keepDigitsPlus s).data⟩ := rfl
  rcases hcs : (keepDigitsPlus s).data with _ | ⟨c0, rest0⟩
  · simp [validate_phone_number, hcs, pyDigitsOf, phoneRegex, phoneCore]
  · rw [hcs] at hp
    by_cases hplus : c0 = '+'
    · subst hplus
      simp [validate_phone_number, hcs, pyDigitsOf, hp]
    · simp [validate_phone_number, hcs, pyDigitsOf, hplus]

theorem validate_phone_number_characterization (s r : String) :
    validate_phone_number s = .ok r ↔
      ∃ c rest, pyDigitsOf (keepDigitsPlus s).data = c :: rest ∧
        '1' ≤ c ∧ c ≤ '9' ∧ rest.all Char.isDigit = true ∧
        1 ≤ rest.length ∧ rest.length ≤ 14 ∧
        r.data = '+' :: c :: rest := by
  rw [validate_phone_eq]
  by_cases hreg : phoneRegex (keepDigitsPlus s).data = true
  · rw [if_pos hreg]
    have hcore : phoneCore (pyDigitsOf (keepDigitsPlus s).data) = true := by
      rw [← phoneRegex_eq_core]; exact hreg
    obtain ⟨c, rest, hds, h1, h2, h3, h4, h5⟩ := (phoneCore_iff _).mp hcore
    constructor
    · intro h
      have hr : r = ⟨'+' :: pyDigitsOf (keepDigitsPlus s).data⟩ := by
        injection h with h
        exact h.symm
      refine ⟨c, rest, hds, h1, h2, h3, h4, h5, ?_⟩
      rw [hr, hds]
    · rintro ⟨c2, rest2, hds2, g1, g2, g3, g4, g5, hr⟩
      rw [hds] at hds2
      injection hds2 with hc hrest
      subst hc
      subst hrest
      refine congrArg Except.ok (String.ext ?_)
      show '+' :: pyDigitsOf (keepDigitsPlus s).data = r.data
      rw [hds, hr]
  · rw [if_neg hreg]
    constructor
    · intro h
      exact absurd h (by simp)
    · rintro ⟨c, rest, hds, h1, h2, h3, h4, h5, hr⟩
      exact absurd (by
        rw [phoneRegex_eq_core]
        exact (phoneCore_iff _).mpr ⟨c, rest, hds, h1, h2, h3, h4, h5⟩) hreg

/-- C8 amended: `validate_phone_number` keeps digits and *all* `+`
characters of the stripped input; it succeeds exactly when, after
dropping one optional leading `+`, the remainder is 2 to 15 digits with
the first digit in 1-9 (and in particular contains no interior `+`),
and then returns those digits prefixed with `+`; the claim's three
concrete examples behave as stated. -/
theorem phone_validation_behavior :
    (∀ s r, validate_phone_number s = .ok r ↔
      ∃ c rest, pyDigitsOf (keepDigitsPlus s).data = c :: rest ∧
        '1' ≤ c ∧ c ≤ '9' ∧ rest.all Char.isDigit = true ∧
        1 ≤ rest.length ∧ rest.length ≤ 14 ∧
        r.data = '+' :: c :: rest) ∧
    validate_phone_number "12025550123" = .ok "+12025550123" ∧
    validate_phone_number "+1 202 555 0123" = .ok "+12025550123" ∧
    validate_phone_number "0" = .error phoneFormatErr := by
  refine ⟨fun s r => validate_phone_number_characterization s r,
    by decide, by decide, by decide⟩

end SessionBot
